import Mathlib

/-!
Verification of the draft reconciliation subsystem of the recipe editor
(`src/backend/web/webapp/edit-description.js`, second page script: the
title/category editor).  The page keeps a user's unsaved edits in three
storage tiers: a tab-scoped tier (`sessionStorage`), a durable tier
(`localStorage`) and a remote Redis-backed cache reached over HTTP.  The
definitions below are a shallow embedding of the storage and reconciliation
functions of that script; the theorems settle the specification's claims
about them.

Modelling conventions:
* Only the single draft key `sm_draft_recipe_<id>` is ever used, so a
  storage tier is modelled as the optional raw value stored under that key.
* A raw stored value is classified by what `JSON.parse` does to it:
  the empty string (falsy, rejected by `readDraft` before parsing), a
  non-empty string that fails to parse, a string parsing to a non-object
  (including `null`), or a string parsing to an object with the draft's
  two relevant fields.
* JavaScript field values appearing in a parsed draft are modelled by
  `JsVal`; numbers are modelled as integers (every number the page itself
  produces is an integer id) and `NaN` as the `none` result of `jsToNumber`.
* The category `<select>` is modelled by its list of option values
  (integers, since every option is created from an integer id with
  `String(c.id)`) together with the current selection; assigning a value
  with no matching option leaves the selection empty, as in the DOM.
-/

namespace EditRecipe

/-- A JavaScript primitive value that can sit in a field of a parsed draft
object. -/
inductive JsVal where
  | vNull : JsVal
  | vBool : Bool → JsVal
  | vNum : Int → JsVal
  | vStr : String → JsVal
  deriving DecidableEq, Repr

/-- Whitespace as recognised by JavaScript's `String.prototype.trim`
(restricted to the ASCII whitespace characters that can occur here). -/
def jsWhitespace (c : Char) : Bool :=
  c == ' ' || c == '\t' || c == '\n' || c == '\r' || c == '\x0b' || c == '\x0c'

/-- JavaScript `s.trim()`: drop leading and trailing whitespace. -/
def jsTrim (s : String) : String :=
  String.mk (((s.data.dropWhile jsWhitespace).reverse.dropWhile jsWhitespace).reverse)

/-- JavaScript truthiness test (`if (x)` / `x || y`) for draft field
values. -/
def jsFalsy : JsVal → Bool
  | JsVal.vNull => true
  | JsVal.vBool b => !b
  | JsVal.vNum n => n == 0
  | JsVal.vStr s => s == ""

/-- `Number(s)` on a string, for the decimal-integer strings this page
produces; `none` models `NaN`. -/
def strToNumber (s : String) : Option Int :=
  if jsTrim s = "" then some 0 else (jsTrim s).toInt?

/-- `Number(v)` on a draft field value; `none` models `NaN`. -/
def jsToNumber : JsVal → Option Int
  | JsVal.vNull => some 0
  | JsVal.vBool b => some (if b then 1 else 0)
  | JsVal.vNum n => some n
  | JsVal.vStr s => strToNumber s

/-- `Number(x || 0)` with `NaN` collapsed to `0`, as both call sites do
(`writeDraft` appends `|| 0`, the restore functions test truthiness, and
`NaN` is falsy).  `x` is an optional field of a parsed draft (`none` is
JavaScript `undefined`). -/
def draftCatNumber (v : Option JsVal) : Int :=
  match v with
  | none => 0
  | some jv => if jsFalsy jv then 0 else (jsToNumber jv).getD 0

/-- A parsed draft object: the two fields the page reads, plus the
informational timestamp `ts` that `writeDraft` stamps and nothing reads. -/
structure DraftObj where
  title : Option JsVal
  category_id : Option JsVal
  ts : Option Int
  deriving DecidableEq, Repr

/-- A raw value stored under the draft key, classified by how
`readDraft`'s `JSON.parse` treats it. -/
inductive RawVal where
  | emptyStr : RawVal
  | malformed : RawVal
  | jsonNonObj : RawVal
  | jsonObj : DraftObj → RawVal
  deriving DecidableEq, Repr

/-- The two local storage tiers, restricted to the single draft key
`sm_draft_recipe_<id>`: the tab-scoped `sessionStorage` cell and the
durable `localStorage` cell. -/
structure Storage where
  sessionStore : Option RawVal
  localStore : Option RawVal
  deriving DecidableEq, Repr

/-- `storageGet`: return the `sessionStorage` value when it is non-null,
otherwise fall through to `localStorage`. -/
def storageGet (s : Storage) : Option RawVal :=
  match s.sessionStore with
  | some v => some v
  | none => s.localStore

/-- `storageSet`: write the value to both tiers (each attempt is
independent in the source; tier failures are not modelled). -/
def storageSet (v : RawVal) (_s : Storage) : Storage :=
  { sessionStore := some v, localStore := some v }

/-- `storageRemove`: best-effort removal of the key from both tiers. -/
def storageRemove : Storage :=
  { sessionStore := none, localStore := none }

/-- `readDraft`: read the raw value via `storageGet`, return `null` when
it is absent or falsy, when `JSON.parse` throws, or when the parsed value
is not an object; otherwise return the parsed object. -/
def readDraft (s : Storage) : Option DraftObj :=
  match storageGet s with
  | none => none
  | some RawVal.emptyStr => none
  | some RawVal.malformed => none
  | some RawVal.jsonNonObj => none
  | some (RawVal.jsonObj d) => some d

/-- The editable form: the title input's value, the category select's
current value (`none` models the empty selection `""`) and the select's
option values. -/
@[ext]
structure Form where
  title : String
  catValue : Option Int
  options : List Int
  deriving DecidableEq, Repr

/-- `Number($category.value || 0)`: the empty selection reads as `0`. -/
def selCategoryNumber (f : Form) : Int :=
  match f.catValue with
  | none => 0
  | some n => n

/-- Assignment `$category.value = String(v)`: the DOM keeps the value only
when an option matches, otherwise the selection becomes empty. -/
def setSelectValue (f : Form) (v : Int) : Form :=
  if f.options.contains v then { f with catValue := some v }
  else { f with catValue := none }

/-- `restoreDraftIntoForm`: overlay the local-tier draft onto the form.
The title is applied only when the draft's `title` is a string with
non-blank trim; the category only when `Number(d.category_id || 0)` is
truthy and an option with that value exists. -/
def restoreDraftIntoForm (s : Storage) (f : Form) : Form :=
  match readDraft s with
  | none => f
  | some d =>
    let f1 :=
      match d.title with
      | some (JsVal.vStr t) => if jsTrim t ≠ "" then { f with title := t } else f
      | _ => f
    let draftCat := draftCatNumber d.category_id
    if draftCat ≠ 0 then
      if f1.options.contains draftCat then { f1 with catValue := some draftCat } else f1
    else f1

/-- `restoreDraftFromRedisIntoForm`: overlay the remote-tier draft onto the
form with the same rules; `none` is the result of `getDraftFromRedis` on
absence or any failure. -/
def restoreDraftFromRedisIntoForm (r : Option DraftObj) (f : Form) : Form :=
  match r with
  | none => f
  | some d =>
    let f1 :=
      match d.title with
      | some (JsVal.vStr t) => if jsTrim t ≠ "" then { f with title := t } else f
      | _ => f
    let cid := draftCatNumber d.category_id
    if cid ≠ 0 then
      if f1.options.contains cid then { f1 with catValue := some cid } else f1
    else f1

/-- `writeDraft`: merge the current form values with the previously stored
draft and write the result to both tiers.  A blank current title falls
back to the previous draft's title when that is a non-blank string (else
`""`); a zero current category falls back to `Number(prev.category_id || 0)
|| 0`.  `now` is `Date.now()`.  Nothing is written when `recipeId` is `0`. -/
def writeDraft (recipeId : Int) (now : Int) (f : Form) (s : Storage) : Storage :=
  if recipeId = 0 then s
  else
    let prev := readDraft s
    let titleNow := jsTrim f.title
    let categoryIdNow := selCategoryNumber f
    let title :=
      if titleNow ≠ "" then titleNow
      else
        match prev with
        | some p =>
          match p.title with
          | some (JsVal.vStr t) => if jsTrim t ≠ "" then t else ""
          | _ => ""
        | none => ""
    let category_id :=
      if categoryIdNow ≠ 0 then categoryIdNow
      else
        match prev with
        | some p => draftCatNumber p.category_id
        | none => 0
    storageSet (RawVal.jsonObj { title := some (JsVal.vStr title),
                                 category_id := some (JsVal.vNum category_id),
                                 ts := some now }) s

/-- `clearDraft`: remove the draft key from both tiers. -/
def clearDraft (_s : Storage) : Storage := storageRemove

/-- The authoritative record as returned by `GET /recipes/<id>` (the two
fields this page consumes). -/
structure Recipe where
  title : String
  category_id : Int
  deriving DecidableEq, Repr

/-- Outcome of the authoritative `PATCH /recipes/<id>` call: `api` either
resolves or throws an `Error` with a message. -/
inductive PatchOutcome where
  | ok : PatchOutcome
  | fail : String → PatchOutcome
  deriving DecidableEq, Repr

/-- Observable result of running `save`: the thrown error message caught
by the click handler's `setErr` (if any), whether the `PATCH` was issued,
whether `clearDraft` ran, and the resulting local storage state. -/
structure SaveResult where
  error : Option String
  patched : Bool
  cleared : Bool
  storage : Storage
  deriving DecidableEq, Repr

/-- `save`: trim the title and read the category; an empty title or a zero
category throws a validation error before any network call; otherwise the
`PATCH` is issued, and only when it resolves is `clearDraft` invoked. -/
def save (f : Form) (s : Storage) (patch : PatchOutcome) : SaveResult :=
  let title := jsTrim f.title
  let categoryId := selCategoryNumber f
  if title = "" then
    { error := some "Название не может быть пустым", patched := false,
      cleared := false, storage := s }
  else if categoryId = 0 then
    { error := some "Выберите категорию", patched := false,
      cleared := false, storage := s }
  else
    match patch with
    | PatchOutcome.fail msg =>
      { error := some msg, patched := true, cleared := false, storage := s }
    | PatchOutcome.ok =>
      { error := none, patched := true, cleared := true, storage := clearDraft s }

/-- The fixed environment of one page run: the recipe id parsed from the
URL, whether the Telegram `initData` precondition holds, `Date.now()`, the
result of the concurrent category-list/recipe fetch (`none` when either
request throws, including the non-array categories check), and the result
of `getDraftFromRedis` (`none` on absence or any failure). -/
structure Env where
  recipeId : Int
  initDataOk : Bool
  now : Int
  fetched : Option (List Int × Recipe)
  remote : Option DraftObj
  deriving DecidableEq, Repr

/-- Result of `load`: the form and storage afterwards, and whether `load`
resolved (rather than throwing). -/
structure LoadResult where
  form : Form
  storage : Storage
  ok : Bool
  deriving DecidableEq, Repr

/-- `load`: check the preconditions, fetch categories and recipe, rebuild
the select's options, hydrate title and category from the server record,
overlay the local-tier draft, then the remote-tier draft, and finally
bootstrap-write a draft from the hydrated form when no local draft
exists. -/
def load (env : Env) (f : Form) (s : Storage) : LoadResult :=
  if env.recipeId = 0 then { form := f, storage := s, ok := false }
  else if env.initDataOk = false then { form := f, storage := s, ok := false }
  else
    match env.fetched with
    | none => { form := f, storage := s, ok := false }
    | some (cats, recipe) =>
      let f1 : Form := { title := recipe.title, catValue := none, options := cats }
      let f2 := setSelectValue f1 recipe.category_id
      let f3 := restoreDraftIntoForm s f2
      let f4 := restoreDraftFromRedisIntoForm env.remote f3
      let s1 := if (readDraft s).isNone then writeDraft env.recipeId env.now f4 s else s
      { form := f4, storage := s1, ok := true }

/-- Observable result of the `pageshow` / non-hidden `visibilitychange`
handler: the form and storage afterwards, whether the remote tier was read
(`restoreDraftFromRedisIntoForm` invoked) and whether the authoritative
re-fetch (`load`) was triggered. -/
structure ReconcileResult where
  form : Form
  storage : Storage
  remoteRead : Bool
  authFetch : Bool
  deriving DecidableEq, Repr

/-- The `pageshow` handler (the non-hidden `visibilitychange` handler runs
the same body): re-apply the local-tier draft overlay; if the title is
still blank, overlay the remote-tier draft; if the title is still blank
after that, re-run `load` (its rejection is swallowed by `.catch`). -/
def pageshowStep (env : Env) (f : Form) (s : Storage) : ReconcileResult :=
  let f1 := restoreDraftIntoForm s f
  if jsTrim f1.title ≠ "" then
    { form := f1, storage := s, remoteRead := false, authFetch := false }
  else
    let f2 := restoreDraftFromRedisIntoForm env.remote f1
    if jsTrim f2.title ≠ "" then
      { form := f2, storage := s, remoteRead := true, authFetch := false }
    else
      let r := load env f2 s
      { form := r.form, storage := r.storage, remoteRead := true, authFetch := true }

/-- Events in a run of the description/ingredients button handlers
(`$btnDesc` / `$btnIng` share the same shape): the synchronous local draft
write, the settling of the awaited remote `PUT` (`putDraftToRedis` catches
its own errors, so it always resolves when the transport completes, with
`ok` false on a swallowed failure), and the navigation. -/
inductive NavEv where
  | writeLocal : NavEv
  | putResolved : Bool → NavEv
  | navigate : NavEv
  deriving DecidableEq, Repr

/-- Event trace of one button-handler run as a function of whether (and
how) the awaited remote `PUT` settles; `none` models a transport that
never completes.  The handler is `async`, so `location.href` is assigned
only after `await putDraftToRedis()` resolves. -/
def btnClickTrace (putCompletion : Option Bool) : List NavEv :=
  NavEv.writeLocal ::
    (match putCompletion with
     | some ok => [NavEv.putResolved ok, NavEv.navigate]
     | none => [])

/-- State-level result of one button-handler run: the storage after the
synchronous `writeDraft`, and whether the navigation was reached. -/
def btnClick (env : Env) (f : Form) (s : Storage) (putCompletion : Option Bool) :
    Storage × Bool :=
  (writeDraft env.recipeId env.now f s, putCompletion.isSome)


/-! ### Helper lemmas -/

lemma restore_none (s : Storage) (g : Form) (h : readDraft s = none) :
    restoreDraftIntoForm s g = g := by
  unfold restoreDraftIntoForm
  rw [h]

lemma restore_options (s : Storage) (f : Form) :
    (restoreDraftIntoForm s f).options = f.options := by
  unfold restoreDraftIntoForm
  cases hrd : readDraft s with
  | none => rfl
  | some d =>
    obtain ⟨dt, dc, dts⟩ := d
    cases dt with
    | none => simp; split_ifs <;> rfl
    | some jv =>
      cases jv <;> simp <;> split_ifs <;> rfl

lemma redis_options (r : Option DraftObj) (f : Form) :
    (restoreDraftFromRedisIntoForm r f).options = f.options := by
  unfold restoreDraftFromRedisIntoForm
  cases r with
  | none => rfl
  | some d =>
    obtain ⟨dt, dc, dts⟩ := d
    cases dt with
    | none => simp; split_ifs <;> rfl
    | some jv =>
      cases jv <;> simp <;> split_ifs <;> rfl


lemma restore_catValue_cases (s : Storage) (f : Form) :
    (restoreDraftIntoForm s f).catValue = f.catValue ∨
      ∃ c, (restoreDraftIntoForm s f).catValue = some c ∧ c ∈ f.options := by
  unfold restoreDraftIntoForm
  cases hrd : readDraft s with
  | none => left; rfl
  | some d =>
    obtain ⟨dt, dc, dts⟩ := d
    cases dt with
    | none =>
      simp
      split_ifs <;> first | (left; rfl) | (right; exact ⟨_, rfl, by simp_all⟩)
    | some jv =>
      cases jv <;> simp <;> split_ifs <;>
        first | (left; rfl) | (right; exact ⟨_, rfl, by simp_all⟩)

lemma redis_catValue_cases (r : Option DraftObj) (f : Form) :
    (restoreDraftFromRedisIntoForm r f).catValue = f.catValue ∨
      ∃ c, (restoreDraftFromRedisIntoForm r f).catValue = some c ∧ c ∈ f.options := by
  unfold restoreDraftFromRedisIntoForm
  cases r with
  | none => left; rfl
  | some d =>
    obtain ⟨dt, dc, dts⟩ := d
    cases dt with
    | none =>
      simp
      split_ifs <;> first | (left; rfl) | (right; exact ⟨_, rfl, by simp_all⟩)
    | some jv =>
      cases jv <;> simp <;> split_ifs <;>
        first | (left; rfl) | (right; exact ⟨_, rfl, by simp_all⟩)


lemma restore_title_eq (s : Storage) (f : Form) :
    (restoreDraftIntoForm s f).title =
      match readDraft s with
      | none => f.title
      | some d =>
        match d.title with
        | some (JsVal.vStr t) => if jsTrim t ≠ "" then t else f.title
        | _ => f.title := by
  unfold restoreDraftIntoForm
  cases hrd : readDraft s with
  | none => rfl
  | some d =>
    obtain ⟨dt, dc, dts⟩ := d
    cases dt with
    | none => simp; split_ifs <;> rfl
    | some jv =>
      cases jv with
      | vStr t =>
        by_cases hb : jsTrim t = "" <;> simp [hb] <;> split_ifs <;> rfl
      | vNull => simp; split_ifs <;> rfl
      | vBool b => simp; split_ifs <;> rfl
      | vNum n => simp; split_ifs <;> rfl

lemma redis_title_eq (r : Option DraftObj) (f : Form) :
    (restoreDraftFromRedisIntoForm r f).title =
      match r with
      | none => f.title
      | some d =>
        match d.title with
        | some (JsVal.vStr t) => if jsTrim t ≠ "" then t else f.title
        | _ => f.title := by
  unfold restoreDraftFromRedisIntoForm
  cases r with
  | none => rfl
  | some d =>
    obtain ⟨dt, dc, dts⟩ := d
    cases dt with
    | none => simp; split_ifs <;> rfl
    | some jv =>
      cases jv with
      | vStr t =>
        by_cases hb : jsTrim t = "" <;> simp [hb] <;> split_ifs <;> rfl
      | vNull => simp; split_ifs <;> rfl
      | vBool b => simp; split_ifs <;> rfl
      | vNum n => simp; split_ifs <;> rfl

lemma restore_catValue_eq (s : Storage) (f : Form) :
    (restoreDraftIntoForm s f).catValue =
      match readDraft s with
      | none => f.catValue
      | some d =>
        if draftCatNumber d.category_id ≠ 0 ∧
           f.options.contains (draftCatNumber d.category_id) = true
        then some (draftCatNumber d.category_id)
        else f.catValue := by
  unfold restoreDraftIntoForm
  cases hrd : readDraft s with
  | none => rfl
  | some d =>
    obtain ⟨dt, dc, dts⟩ := d
    cases dt with
    | none => simp; split_ifs <;> simp_all
    | some jv =>
      cases jv with
      | vStr t =>
        by_cases hb : jsTrim t = "" <;> simp [hb] <;> split_ifs <;> simp_all
      | vNull => simp; split_ifs <;> simp_all
      | vBool b => simp; split_ifs <;> simp_all
      | vNum n => simp; split_ifs <;> simp_all

lemma redis_catValue_eq (r : Option DraftObj) (f : Form) :
    (restoreDraftFromRedisIntoForm r f).catValue =
      match r with
      | none => f.catValue
      | some d =>
        if draftCatNumber d.category_id ≠ 0 ∧
           f.options.contains (draftCatNumber d.category_id) = true
        then some (draftCatNumber d.category_id)
        else f.catValue := by
  unfold restoreDraftFromRedisIntoForm
  cases r with
  | none => rfl
  | some d =>
    obtain ⟨dt, dc, dts⟩ := d
    cases dt with
    | none => simp; split_ifs <;> simp_all
    | some jv =>
      cases jv with
      | vStr t =>
        by_cases hb : jsTrim t = "" <;> simp [hb] <;> split_ifs <;> simp_all
      | vNull => simp; split_ifs <;> simp_all
      | vBool b => simp; split_ifs <;> simp_all
      | vNum n => simp; split_ifs <;> simp_all


lemma restore_idem (s : Storage) (f : Form) :
    restoreDraftIntoForm s (restoreDraftIntoForm s f) = restoreDraftIntoForm s f := by
  apply Form.ext
  · rw [restore_title_eq s (restoreDraftIntoForm s f), restore_title_eq s f]
    cases hrd : readDraft s with
    | none => rfl
    | some d =>
      obtain ⟨dt, dc, dts⟩ := d
      cases dt with
      | none => rfl
      | some jv =>
        cases jv with
        | vStr t => by_cases hb : jsTrim t = "" <;> simp [hb]
        | vNull => rfl
        | vBool b => rfl
        | vNum n => rfl
  · rw [restore_catValue_eq s (restoreDraftIntoForm s f), restore_catValue_eq s f]
    cases hrd : readDraft s with
    | none => rfl
    | some d =>
      simp only [restore_options]
      split_ifs with hc
      · rfl
      · rfl
  · rw [restore_options, restore_options]

lemma restore_title_inert (s : Storage) (f : Form)
    (h : jsTrim (restoreDraftIntoForm s f).title = "") :
    ∀ g : Form, (restoreDraftIntoForm s g).title = g.title := by
  intro g
  rw [restore_title_eq] at h ⊢
  cases hrd : readDraft s with
  | none => rfl
  | some d =>
    rw [hrd] at h
    obtain ⟨dt, dc, dts⟩ := d
    cases dt with
    | none => rfl
    | some jv =>
      cases jv with
      | vStr t =>
        by_cases hb : jsTrim t = "" <;> simp [hb] at h ⊢
      | vNull => rfl
      | vBool b => rfl
      | vNum n => rfl

lemma redis_title_inert (r : Option DraftObj) (f : Form)
    (h : jsTrim (restoreDraftFromRedisIntoForm r f).title = "") :
    ∀ g : Form, (restoreDraftFromRedisIntoForm r g).title = g.title := by
  intro g
  rw [redis_title_eq] at h ⊢
  cases r with
  | none => rfl
  | some d =>
    obtain ⟨dt, dc, dts⟩ := d
    cases dt with
    | none => rfl
    | some jv =>
      cases jv with
      | vStr t =>
        by_cases hb : jsTrim t = "" <;> simp [hb] at h ⊢
      | vNull => rfl
      | vBool b => rfl
      | vNum n => rfl

lemma writeDraft_eq (rid now : Int) (f : Form) (s : Storage) (h : ¬ rid = 0) :
    readDraft (writeDraft rid now f s) = some
      { title := some (JsVal.vStr (
          if jsTrim f.title ≠ "" then jsTrim f.title
          else match readDraft s with
               | some p =>
                 match p.title with
                 | some (JsVal.vStr t) => if jsTrim t ≠ "" then t else ""
                 | _ => ""
               | none => "")),
        category_id := some (JsVal.vNum (
          if selCategoryNumber f ≠ 0 then selCategoryNumber f
          else match readDraft s with
               | some p => draftCatNumber p.category_id
               | none => 0)),
        ts := some now } := by
  unfold writeDraft
  rw [if_neg h]
  rfl


lemma load_fail (env : Env) (g : Form) (s : Storage)
    (h : env.recipeId = 0 ∨ env.initDataOk = false ∨ env.fetched = none) :
    load env g s = { form := g, storage := s, ok := false } := by
  unfold load
  by_cases h0 : env.recipeId = 0
  · rw [if_pos h0]
  · rw [if_neg h0]
    by_cases h1 : env.initDataOk = false
    · rw [if_pos h1]
    · rw [if_neg h1]
      rcases h with h | h | h
      · exact absurd h h0
      · exact absurd h h1
      · rw [h]

lemma load_success_eq (env : Env) (g : Form) (s : Storage) (cats : List Int)
    (recipe : Recipe) (h0 : ¬ env.recipeId = 0) (h1 : env.initDataOk = true)
    (h2 : env.fetched = some (cats, recipe)) :
    load env g s =
      (let f2 := setSelectValue { title := recipe.title, catValue := none, options := cats }
                   recipe.category_id
       let f4 := restoreDraftFromRedisIntoForm env.remote (restoreDraftIntoForm s f2)
       { form := f4,
         storage := if (readDraft s).isNone then writeDraft env.recipeId env.now f4 s else s,
         ok := true }) := by
  unfold load
  rw [if_neg h0, h1, if_neg (by simp), h2]

lemma load_storage_some (env : Env) (g : Form) (s : Storage) (d0 : DraftObj)
    (h : readDraft s = some d0) : (load env g s).storage = s := by
  by_cases h0 : env.recipeId = 0
  · rw [load_fail env g s (Or.inl h0)]
  · by_cases h1 : env.initDataOk = false
    · rw [load_fail env g s (Or.inr (Or.inl h1))]
    · cases h2 : env.fetched with
      | none => rw [load_fail env g s (Or.inr (Or.inr h2))]
      | some cr =>
        obtain ⟨cats, recipe⟩ := cr
        rw [load_success_eq env g s cats recipe h0 (by simpa using h1) h2]
        simp [h]

lemma load_success_draft (env : Env) (g : Form) (s : Storage) (cats : List Int)
    (recipe : Recipe) (h0 : ¬ env.recipeId = 0) (h1 : env.initDataOk = true)
    (h2 : env.fetched = some (cats, recipe)) :
    ∃ d', readDraft (load env g s).storage = some d' := by
  rw [load_success_eq env g s cats recipe h0 h1 h2]
  dsimp only
  cases hrd : readDraft s with
  | some d0 => exact ⟨d0, by simp [hrd]⟩
  | none =>
    simp only [hrd, Option.isNone_none, if_pos]
    exact ⟨_, writeDraft_eq env.recipeId env.now _ s h0⟩

lemma pageshow_storage_some (env : Env) (g : Form) (s : Storage) (d0 : DraftObj)
    (h : readDraft s = some d0) : (pageshowStep env g s).storage = s := by
  simp only [pageshowStep]
  split_ifs
  · rfl
  · rfl
  · exact load_storage_some env _ s d0 h

lemma pageshow_eq1 (env : Env) (f : Form) (s : Storage)
    (h : jsTrim (restoreDraftIntoForm s f).title ≠ "") :
    pageshowStep env f s =
      { form := restoreDraftIntoForm s f, storage := s,
        remoteRead := false, authFetch := false } := by
  simp only [pageshowStep]
  rw [if_pos h]

lemma pageshow_eq2 (env : Env) (f : Form) (s : Storage)
    (h1 : jsTrim (restoreDraftIntoForm s f).title = "")
    (h2 : jsTrim (restoreDraftFromRedisIntoForm env.remote (restoreDraftIntoForm s f)).title ≠ "") :
    pageshowStep env f s =
      { form := restoreDraftFromRedisIntoForm env.remote (restoreDraftIntoForm s f),
        storage := s, remoteRead := true, authFetch := false } := by
  simp only [pageshowStep]
  rw [if_neg (by simp [h1]), if_pos h2]

lemma pageshow_eq3 (env : Env) (f : Form) (s : Storage)
    (h1 : jsTrim (restoreDraftIntoForm s f).title = "")
    (h2 : jsTrim (restoreDraftFromRedisIntoForm env.remote (restoreDraftIntoForm s f)).title = "") :
    pageshowStep env f s =
      { form := (load env (restoreDraftFromRedisIntoForm env.remote (restoreDraftIntoForm s f)) s).form,
        storage := (load env (restoreDraftFromRedisIntoForm env.remote (restoreDraftIntoForm s f)) s).storage,
        remoteRead := true, authFetch := true } := by
  simp only [pageshowStep]
  rw [if_neg (by simp [h1]), if_neg (by simp [h2])]


/-- C7 (amended): the local-draft overlay alone is idempotent, and running
the pageshow/visibility handler twice leaves the stored draft as after one
run and triggers a remote read or an authoritative fetch only if the single
run does; the handler is not idempotent on the form itself, because the
duplicate run re-applies the local draft over fields the first run's
escalation set. -/
theorem pageshow_dup_draft (env : Env) (f : Form) (s : Storage) :
    restoreDraftIntoForm s (restoreDraftIntoForm s f) = restoreDraftIntoForm s f ∧
    (pageshowStep env (pageshowStep env f s).form (pageshowStep env f s).storage).storage
      = (pageshowStep env f s).storage ∧
    ((pageshowStep env (pageshowStep env f s).form (pageshowStep env f s).storage).remoteRead = true
      → (pageshowStep env f s).remoteRead = true) ∧
    ((pageshowStep env (pageshowStep env f s).form (pageshowStep env f s).storage).authFetch = true
      → (pageshowStep env f s).authFetch = true) := by
  refine ⟨restore_idem s f, ?_⟩
  by_cases h1 : jsTrim (restoreDraftIntoForm s f).title = ""
  case neg =>
    rw [pageshow_eq1 env f s h1]
    dsimp only
    have h1' : jsTrim (restoreDraftIntoForm s (restoreDraftIntoForm s f)).title ≠ "" := by
      rw [restore_idem s f]; exact h1
    rw [pageshow_eq1 env (restoreDraftIntoForm s f) s h1']
    exact ⟨rfl, by simp, by simp⟩
  case pos =>
    by_cases h2 : jsTrim (restoreDraftFromRedisIntoForm env.remote (restoreDraftIntoForm s f)).title = ""
    case neg =>
      rw [pageshow_eq2 env f s h1 h2]
      dsimp only
      have hti := restore_title_inert s f h1
        (restoreDraftFromRedisIntoForm env.remote (restoreDraftIntoForm s f))
      have h2' : jsTrim (restoreDraftIntoForm s
          (restoreDraftFromRedisIntoForm env.remote (restoreDraftIntoForm s f))).title ≠ "" := by
        rw [hti]; exact h2
      rw [pageshow_eq1 env _ s h2']
      exact ⟨rfl, by simp, by simp⟩
    case pos =>
      rw [pageshow_eq3 env f s h1 h2]
      dsimp only
      refine ⟨?_, fun _ => rfl, fun _ => rfl⟩
      set f2 := restoreDraftFromRedisIntoForm env.remote (restoreDraftIntoForm s f) with hf2
      by_cases hsucc : ∃ cats recipe, env.fetched = some (cats, recipe) ∧
          ¬ env.recipeId = 0 ∧ env.initDataOk = true
      · obtain ⟨cats, recipe, hf, h0, hi⟩ := hsucc
        obtain ⟨d', hd'⟩ := load_success_draft env f2 s cats recipe h0 hi hf
        exact pageshow_storage_some env _ _ d' hd'
      · have hfail : env.recipeId = 0 ∨ env.initDataOk = false ∨ env.fetched = none := by
          by_cases h0 : env.recipeId = 0
          · exact Or.inl h0
          · by_cases hi : env.initDataOk = false
            · exact Or.inr (Or.inl hi)
            · cases hf : env.fetched with
              | none => exact Or.inr (Or.inr rfl)
              | some cr =>
                exact absurd ⟨cr.1, cr.2, by rw [hf], h0, by simpa using hi⟩ hsucc
        rw [load_fail env f2 s hfail]
        dsimp only
        have hti := restore_title_inert s f h1 f2
        have h1x : jsTrim (restoreDraftIntoForm s f2).title = "" := by
          rw [hti]; exact h2
        have hred := redis_title_inert env.remote (restoreDraftIntoForm s f) h2
          (restoreDraftIntoForm s f2)
        have h2x : jsTrim (restoreDraftFromRedisIntoForm env.remote
            (restoreDraftIntoForm s f2)).title = "" := by
          rw [hred, hti]; exact h2
        rw [pageshow_eq3 env f2 s h1x h2x]
        dsimp only
        rw [load_fail env _ s hfail]


lemma redis_none (g : Form) : restoreDraftFromRedisIntoForm none g = g := rfl

/-- C1 (amended): `writeDraft` merges the current form values with the stored
draft.  A non-blank current title is stored (trimmed); a blank current title
keeps the previous draft's title when that is a string with non-blank trim
and otherwise normalises to `""` (also when no draft was stored).  A non-zero
current category is stored; a zero/absent current category keeps the previous
draft's numeric category, normalising to `0` when no draft was stored. -/
theorem writeDraft_merge_policy (rid now : Int) (f : Form) (s : Storage) (hrid : ¬ rid = 0) :
    ((jsTrim f.title ≠ "" →
        (readDraft (writeDraft rid now f s)).bind DraftObj.title
          = some (JsVal.vStr (jsTrim f.title))) ∧
     (∀ p t, jsTrim f.title = "" → readDraft s = some p →
        p.title = some (JsVal.vStr t) → jsTrim t ≠ "" →
        (readDraft (writeDraft rid now f s)).bind DraftObj.title = some (JsVal.vStr t)) ∧
     (∀ p, jsTrim f.title = "" → readDraft s = some p →
        (∀ t, p.title = some (JsVal.vStr t) → jsTrim t = "") →
        (readDraft (writeDraft rid now f s)).bind DraftObj.title = some (JsVal.vStr "")) ∧
     (jsTrim f.title = "" → readDraft s = none →
        (readDraft (writeDraft rid now f s)).bind DraftObj.title = some (JsVal.vStr ""))) ∧
    ((selCategoryNumber f ≠ 0 →
        (readDraft (writeDraft rid now f s)).bind DraftObj.category_id
          = some (JsVal.vNum (selCategoryNumber f))) ∧
     (∀ p n, selCategoryNumber f = 0 → readDraft s = some p →
        p.category_id = some (JsVal.vNum n) →
        (readDraft (writeDraft rid now f s)).bind DraftObj.category_id = some (JsVal.vNum n)) ∧
     (selCategoryNumber f = 0 → readDraft s = none →
        (readDraft (writeDraft rid now f s)).bind DraftObj.category_id = some (JsVal.vNum 0))) := by
  have hw := writeDraft_eq rid now f s hrid
  refine ⟨⟨?_, ?_, ?_, ?_⟩, ?_, ?_, ?_⟩
  · intro h
    rw [hw]
    simp [h]
  · intro p t h hp ht hnb
    rw [hw]
    simp [h, hp, ht, hnb]
  · intro p h hp hall
    rw [hw]
    simp [h, hp]
    cases hpt : p.title with
    | none => rfl
    | some jv =>
      cases jv with
      | vStr t => simp [hall t hpt]
      | vNull => rfl
      | vBool b => rfl
      | vNum n => rfl
  · intro h hp
    rw [hw]
    simp [h, hp]
  · intro h
    rw [hw]
    simp [h]
  · intro p n h hp hc
    rw [hw]
    simp [h, hp, hc, draftCatNumber, jsFalsy, jsToNumber]
    by_cases hn : n = 0 <;> simp [hn]
  · intro h hp
    rw [hw]
    simp [h, hp]

/-- C1 (counterexample): writing with a blank current title over a stored
draft whose title is the whitespace-only string `" "` stores the title `""`,
not the previous draft's value `" "` — the previous value is not kept
verbatim, refuting the claim's universal "keeps the previous draft's value". -/
theorem writeDraft_whitespace_prev_counterexample :
    (readDraft (writeDraft 1 0 { title := "", catValue := some 1, options := [1] }
        { sessionStore := some (RawVal.jsonObj
            { title := some (JsVal.vStr " "), category_id := some (JsVal.vNum 1), ts := some 0 }),
          localStore := none })).bind DraftObj.title = some (JsVal.vStr "") ∧
    (JsVal.vStr "" : JsVal) ≠ JsVal.vStr " " := by decide

/-- C1 (witness): the claim's own concrete instance — writing title `"B"`
over a stored draft `{title: "A", category_id: 1}` stores title `"B"`. -/
theorem writeDraft_merge_policy_witness :
    (readDraft (writeDraft 1 0 { title := "B", catValue := some 1, options := [1] }
        { sessionStore := some (RawVal.jsonObj
            { title := some (JsVal.vStr "A"), category_id := some (JsVal.vNum 1), ts := some 0 }),
          localStore := none })).bind DraftObj.title = some (JsVal.vStr "B") := by
  have h := (writeDraft_merge_policy 1 0 { title := "B", catValue := some 1, options := [1] }
      { sessionStore := some (RawVal.jsonObj
          { title := some (JsVal.vStr "A"), category_id := some (JsVal.vNum 1), ts := some 0 }),
        localStore := none } (by decide)).1.1 (by decide)
  simpa using h


/-- C2 (amended): when the tab-scoped tier holds any non-parseable or
non-object value, `readDraft` returns `none` — it does not fall back to the
durable tier, which is consulted only when the tab-scoped tier has no value.
The read is a total function (malformed content never throws). -/
theorem readDraft_malformed_session (s : Storage) (raw : RawVal)
    (hs : s.sessionStore = some raw) (hraw : ∀ d, raw ≠ RawVal.jsonObj d) :
    readDraft s = none ∧
    (∀ d : DraftObj,
      readDraft { sessionStore := none, localStore := some (RawVal.jsonObj d) } = some d) := by
  constructor
  · unfold readDraft storageGet
    rw [hs]
    cases raw with
    | emptyStr => rfl
    | malformed => rfl
    | jsonNonObj => rfl
    | jsonObj d => exact absurd rfl (hraw d)
  · intro d
    rfl

/-- C2 (counterexample): with a malformed tab-scoped value and a durable
tier holding a parseable draft (which reads fine on its own), the combined
read returns `none`, not the durable tier's draft as the claim states. -/
theorem readDraft_malformed_session_counterexample :
    readDraft { sessionStore := some RawVal.malformed,
                localStore := some (RawVal.jsonObj
                  { title := some (JsVal.vStr "A"), category_id := some (JsVal.vNum 1), ts := some 0 }) }
      = none ∧
    readDraft { sessionStore := none,
                localStore := some (RawVal.jsonObj
                  { title := some (JsVal.vStr "A"), category_id := some (JsVal.vNum 1), ts := some 0 }) }
      = some { title := some (JsVal.vStr "A"), category_id := some (JsVal.vNum 1), ts := some 0 } := by
  decide

/-- C2 (witness): a non-object tab-scoped value over a parseable durable
draft reads as `none`. -/
theorem readDraft_malformed_session_witness :
    readDraft { sessionStore := some RawVal.jsonNonObj,
                localStore := some (RawVal.jsonObj
                  { title := some (JsVal.vStr "B"), category_id := some (JsVal.vNum 2), ts := some 0 }) }
      = none :=
  (readDraft_malformed_session _ RawVal.jsonNonObj rfl (fun _ h => RawVal.noConfusion h)).1

/-- C3: `save` clears the local draft (both tiers, so a subsequent read
finds no draft) exactly on success; on every failing path — validation
failure or PATCH failure — the stored draft is left unchanged and
`clearDraft` is not invoked. -/
theorem save_clears_draft_only_on_success (f : Form) (s : Storage) (patch : PatchOutcome) :
    ((save f s patch).error = none →
      patch = PatchOutcome.ok ∧ (save f s patch).patched = true ∧
      (save f s patch).cleared = true ∧ (save f s patch).storage = clearDraft s ∧
      readDraft (save f s patch).storage = none) ∧
    ((save f s patch).error ≠ none →
      (save f s patch).cleared = false ∧ (save f s patch).storage = s) := by
  simp only [save]
  split_ifs with hv1 hv2
  · exact ⟨fun h => by simp at h, fun _ => ⟨rfl, rfl⟩⟩
  · exact ⟨fun h => by simp at h, fun _ => ⟨rfl, rfl⟩⟩
  · cases patch with
    | ok => exact ⟨fun _ => ⟨rfl, rfl, rfl, rfl, rfl⟩, fun h => absurd rfl h⟩
    | fail msg => exact ⟨fun h => by simp at h, fun _ => ⟨rfl, rfl⟩⟩

/-- C3 (witness): after a successful save over a stored draft, the read
finds no draft. -/
theorem save_clears_draft_only_on_success_witness :
    readDraft (save { title := "T", catValue := some 1, options := [1] }
      { sessionStore := some (RawVal.jsonObj
          { title := some (JsVal.vStr "T"), category_id := some (JsVal.vNum 1), ts := some 0 }),
        localStore := none } PatchOutcome.ok).storage = none :=
  ((save_clears_draft_only_on_success { title := "T", catValue := some 1, options := [1] }
      { sessionStore := some (RawVal.jsonObj
          { title := some (JsVal.vStr "T"), category_id := some (JsVal.vNum 1), ts := some 0 }),
        localStore := none } PatchOutcome.ok).1 (by decide)).2.2.2.2

/-- C8: with an empty trimmed title or a zero category id, `save` rejects
locally with one of the two user-facing validation messages; no PATCH is
issued, nothing is cleared and storage is unchanged. -/
theorem save_rejects_invalid_before_network (f : Form) (s : Storage) (patch : PatchOutcome)
    (h : jsTrim f.title = "" ∨ selCategoryNumber f = 0) :
    (save f s patch).patched = false ∧ (save f s patch).cleared = false ∧
    (save f s patch).storage = s ∧
    ((save f s patch).error = some "Название не может быть пустым" ∨
     (save f s patch).error = some "Выберите категорию") := by
  simp only [save]
  split_ifs with hv1 hv2
  · exact ⟨rfl, rfl, rfl, Or.inl rfl⟩
  · exact ⟨rfl, rfl, rfl, Or.inr rfl⟩
  · rcases h with h | h
    · exact absurd h hv1
    · exact absurd h hv2

/-- C8 (witness): a whitespace-only title is rejected before any PATCH. -/
theorem save_rejects_invalid_before_network_witness :
    (save { title := "  ", catValue := some 3, options := [3] }
      { sessionStore := none, localStore := none } PatchOutcome.ok).patched = false :=
  (save_rejects_invalid_before_network { title := "  ", catValue := some 3, options := [3] }
    { sessionStore := none, localStore := none } PatchOutcome.ok (Or.inl (by decide))).1

/-- C4 (amended): the description/ingredients click handlers write the
local draft synchronously first, but `await` the remote put before
navigating: navigation happens exactly when the put settles (with either
outcome, since `putDraftToRedis` swallows its errors); a put that never
completes blocks the navigation. -/
theorem btnClick_writes_then_awaits_put (env : Env) (f : Form) (s : Storage)
    (c : Option Bool) :
    (btnClick env f s c).1 = writeDraft env.recipeId env.now f s ∧
    (btnClickTrace c).head? = some NavEv.writeLocal ∧
    ((btnClick env f s c).2 = true ↔ c.isSome = true) ∧
    (NavEv.navigate ∈ btnClickTrace c ↔ c.isSome = true) := by
  refine ⟨rfl, rfl, Iff.rfl, ?_⟩
  cases c <;> simp [btnClickTrace]

/-- C4 (counterexample): when the remote put never settles, the handler
never reaches the navigation — contrary to the claim, navigation is gated on
the awaited remote push. -/
theorem btnClick_blocked_navigation_counterexample :
    (btnClick { recipeId := 7, initDataOk := true, now := 0, fetched := none, remote := none }
      { title := "T", catValue := some 1, options := [1] }
      { sessionStore := none, localStore := none } none).2 = false ∧
    NavEv.navigate ∉ btnClickTrace none := by decide

/-- C4 (witness): when the put resolves, the handler navigates. -/
theorem btnClick_writes_then_awaits_put_witness :
    (btnClick { recipeId := 7, initDataOk := true, now := 0, fetched := none, remote := none }
      { title := "T", catValue := some 1, options := [1] }
      { sessionStore := none, localStore := none } (some true)).2 = true :=
  ((btnClick_writes_then_awaits_put
      { recipeId := 7, initDataOk := true, now := 0, fetched := none, remote := none }
      { title := "T", catValue := some 1, options := [1] }
      { sessionStore := none, localStore := none } (some true)).2.2.1).mpr rfl


/-- C5: `load` overlays in the order server values, local-tier draft,
remote-tier draft.  With both local tiers empty, the remote draft holding
title `"Remote Title"` and the server returning `"Server Title"`, the final
visible title is `"Remote Title"`. -/
theorem load_overlay_escalation_order (env : Env) (f : Form) (cats : List Int)
    (recipe : Recipe) (rd : DraftObj)
    (h0 : ¬ env.recipeId = 0) (h1 : env.initDataOk = true)
    (h2 : env.fetched = some (cats, recipe)) (h3 : env.remote = some rd)
    (h4 : rd.title = some (JsVal.vStr "Remote Title"))
    (_h5 : recipe.title = "Server Title") :
    (load env f { sessionStore := none, localStore := none }).form =
      restoreDraftFromRedisIntoForm env.remote
        (restoreDraftIntoForm { sessionStore := none, localStore := none }
          (setSelectValue { title := recipe.title, catValue := none, options := cats }
            recipe.category_id)) ∧
    (load env f { sessionStore := none, localStore := none }).form.title = "Remote Title" := by
  rw [load_success_eq env f { sessionStore := none, localStore := none } cats recipe h0 h1 h2]
  dsimp only
  refine ⟨rfl, ?_⟩
  have hnb : jsTrim "Remote Title" ≠ "" := by decide
  rw [redis_title_eq, h3]
  simp [h4, hnb]

/-- C5 (witness): the escalation-order scenario at concrete inputs. -/
theorem load_overlay_escalation_order_witness :
    (load { recipeId := 1, initDataOk := true, now := 0,
              fetched := some ([1], { title := "Server Title", category_id := 1 }),
              remote := some { title := some (JsVal.vStr "Remote Title"),
                                 category_id := none, ts := none } }
        { title := "", catValue := none, options := [] }
        { sessionStore := none, localStore := none }).form.title = "Remote Title" :=
  (load_overlay_escalation_order
    { recipeId := 1, initDataOk := true, now := 0,
      fetched := some ([1], { title := "Server Title", category_id := 1 }),
      remote := some { title := some (JsVal.vStr "Remote Title"),
                       category_id := none, ts := none } }
    { title := "", catValue := none, options := [] }
    [1] { title := "Server Title", category_id := 1 }
    { title := some (JsVal.vStr "Remote Title"), category_id := none, ts := none }
    (by decide) rfl rfl rfl rfl rfl).2

/-- C6: on a visibility-restore with a blank visible title while the local
tier holds a draft with a non-blank title, the handler restores that title
into the form, reads nothing from the remote tier, performs no authoritative
re-fetch and leaves storage untouched. -/
theorem pageshow_blank_form_recovery (env : Env) (f : Form) (s : Storage)
    (d : DraftObj) (t : String)
    (_hf : jsTrim f.title = "") (hd : readDraft s = some d)
    (ht : d.title = some (JsVal.vStr t)) (hnb : jsTrim t ≠ "") :
    (pageshowStep env f s).form = restoreDraftIntoForm s f ∧
    (pageshowStep env f s).form.title = t ∧
    (pageshowStep env f s).storage = s ∧
    (pageshowStep env f s).remoteRead = false ∧
    (pageshowStep env f s).authFetch = false := by
  have htitle : (restoreDraftIntoForm s f).title = t := by
    rw [restore_title_eq, hd]
    simp [ht, hnb]
  have hcond : jsTrim (restoreDraftIntoForm s f).title ≠ "" := by
    rw [htitle]; exact hnb
  rw [pageshow_eq1 env f s hcond]
  exact ⟨rfl, htitle, rfl, rfl, rfl⟩

/-- C6 (witness): the `"Kept Title"` scenario at concrete inputs. -/
theorem pageshow_blank_form_recovery_witness :
    (pageshowStep { recipeId := 1, initDataOk := true, now := 0, fetched := none, remote := none }
      { title := "", catValue := none, options := [2] }
      { sessionStore := some (RawVal.jsonObj
          { title := some (JsVal.vStr "Kept Title"), category_id := some (JsVal.vNum 2), ts := some 0 }),
        localStore := none }).form.title = "Kept Title" :=
  (pageshow_blank_form_recovery
    { recipeId := 1, initDataOk := true, now := 0, fetched := none, remote := none }
    { title := "", catValue := none, options := [2] }
    { sessionStore := some (RawVal.jsonObj
        { title := some (JsVal.vStr "Kept Title"), category_id := some (JsVal.vNum 2), ts := some 0 }),
      localStore := none }
    { title := some (JsVal.vStr "Kept Title"), category_id := some (JsVal.vNum 2), ts := some 0 }
    "Kept Title" (by decide) rfl rfl (by decide)).2.1

/-- C9 (amended): on first-ever load with both local tiers empty and the
remote tier absent, the bootstrap write fills both tiers with the draft
whose `category_id` is the hydrated (server) category and whose title is the
trimmed server title — equal to the hydrated form state exactly when the
server title carries no surrounding whitespace. -/
theorem load_bootstrap_writes_trimmed_draft (env : Env) (f : Form) (cats : List Int)
    (recipe : Recipe)
    (h0 : ¬ env.recipeId = 0) (h1 : env.initDataOk = true)
    (h2 : env.fetched = some (cats, recipe)) (h3 : env.remote = none)
    (h4 : cats.contains recipe.category_id = true) :
    (load env f { sessionStore := none, localStore := none }).ok = true ∧
    (load env f { sessionStore := none, localStore := none }).form.title = recipe.title ∧
    (load env f { sessionStore := none, localStore := none }).form.catValue
      = some recipe.category_id ∧
    (load env f { sessionStore := none, localStore := none }).storage =
      storageSet (RawVal.jsonObj
        { title := some (JsVal.vStr (jsTrim recipe.title)),
          category_id := some (JsVal.vNum recipe.category_id),
          ts := some env.now })
        { sessionStore := none, localStore := none } := by
  rw [load_success_eq env f { sessionStore := none, localStore := none } cats recipe h0 h1 h2]
  dsimp only
  have hrdnone : readDraft { sessionStore := none, localStore := none } = none := rfl
  rw [restore_none _ _ hrdnone, h3, redis_none]
  simp only [setSelectValue]
  rw [if_pos (by simpa using h4)]
  refine ⟨by trivial, by trivial, by trivial, ?_⟩
  simp only [hrdnone, Option.isNone_none, if_pos]
  unfold writeDraft
  rw [if_neg h0]
  simp only [hrdnone]
  have htitle : (if jsTrim recipe.title ≠ "" then jsTrim recipe.title else "")
      = jsTrim recipe.title := by
    by_cases hb : jsTrim recipe.title = "" <;> simp [hb]
  have hcat : (if recipe.category_id ≠ 0 then recipe.category_id else 0)
      = recipe.category_id := by
    by_cases hc : recipe.category_id = 0 <;> simp [hc]
  simp only [selCategoryNumber]
  simp [htitle, hcat]

/-- C9 (counterexample): with server title `" X "` the hydrated form shows
`" X "` but the bootstrapped draft stores the trimmed `"X"`, so the stored
fields do not equal the hydrated form state as the claim requires. -/
theorem load_bootstrap_trim_counterexample :
    (load { recipeId := 1, initDataOk := true, now := 5,
              fetched := some ([1], { title := " X ", category_id := 1 }),
              remote := none }
        { title := "", catValue := none, options := [] }
        { sessionStore := none, localStore := none }).form.title = " X " ∧
    (readDraft (load { recipeId := 1, initDataOk := true, now := 5,
                         fetched := some ([1], { title := " X ", category_id := 1 }),
                         remote := none }
        { title := "", catValue := none, options := [] }
        { sessionStore := none, localStore := none }).storage).bind DraftObj.title
      = some (JsVal.vStr "X") ∧
    ("X" : String) ≠ " X " := by decide

/-- C9 (witness): the bootstrap write at concrete inputs. -/
theorem load_bootstrap_writes_trimmed_draft_witness :
    (load { recipeId := 1, initDataOk := true, now := 7,
              fetched := some ([4], { title := "T", category_id := 4 }), remote := none }
        { title := "", catValue := none, options := [] }
        { sessionStore := none, localStore := none }).storage =
      storageSet (RawVal.jsonObj
        { title := some (JsVal.vStr (jsTrim "T")),
          category_id := some (JsVal.vNum 4), ts := some 7 })
        { sessionStore := none, localStore := none } :=
  (load_bootstrap_writes_trimmed_draft
    { recipeId := 1, initDataOk := true, now := 7,
      fetched := some ([4], { title := "T", category_id := 4 }), remote := none }
    { title := "", catValue := none, options := [] }
    [4] { title := "T", category_id := 4 }
    (by decide) rfl rfl rfl (by decide)).2.2.2

/-- C10: both draft-restore overlays apply a category to the select only
when an option with that value exists; otherwise the selection is left
unchanged — a restore never sets the category outside the loaded option
list (and never changes the option list). -/
theorem restore_category_only_from_options (s : Storage) (r : Option DraftObj) (f : Form) :
    ((restoreDraftIntoForm s f).options = f.options ∧
      ((restoreDraftIntoForm s f).catValue = f.catValue ∨
        ∃ c, (restoreDraftIntoForm s f).catValue = some c ∧ c ∈ f.options)) ∧
    ((restoreDraftFromRedisIntoForm r f).options = f.options ∧
      ((restoreDraftFromRedisIntoForm r f).catValue = f.catValue ∨
        ∃ c, (restoreDraftFromRedisIntoForm r f).catValue = some c ∧ c ∈ f.options)) :=
  ⟨⟨restore_options s f, restore_catValue_cases s f⟩,
   ⟨redis_options r f, redis_catValue_cases r f⟩⟩

/-- C7 (counterexample): with a local draft carrying only a category and a
remote draft carrying a title and a different category, the second handler
run re-applies the local draft and reverts the category that the first run's
remote overlay set, so the form after two runs differs from the form after
one run. -/
theorem pageshow_duplicate_run_counterexample :
    (pageshowStep
        { recipeId := 1, initDataOk := true, now := 0,
            fetched := some ([2, 3], { title := "S", category_id := 2 }),
            remote := some { title := some (JsVal.vStr "R"),
                               category_id := some (JsVal.vNum 3), ts := none } }
        (pageshowStep
          { recipeId := 1, initDataOk := true, now := 0,
              fetched := some ([2, 3], { title := "S", category_id := 2 }),
              remote := some { title := some (JsVal.vStr "R"),
                                 category_id := some (JsVal.vNum 3), ts := none } }
          { title := "", catValue := none, options := [2, 3] }
          { sessionStore := some (RawVal.jsonObj
              { title := none, category_id := some (JsVal.vNum 2), ts := none }),
            localStore := none }).form
        (pageshowStep
          { recipeId := 1, initDataOk := true, now := 0,
              fetched := some ([2, 3], { title := "S", category_id := 2 }),
              remote := some { title := some (JsVal.vStr "R"),
                                 category_id := some (JsVal.vNum 3), ts := none } }
          { title := "", catValue := none, options := [2, 3] }
          { sessionStore := some (RawVal.jsonObj
              { title := none, category_id := some (JsVal.vNum 2), ts := none }),
            localStore := none }).storage).form
      ≠ (pageshowStep
          { recipeId := 1, initDataOk := true, now := 0,
              fetched := some ([2, 3], { title := "S", category_id := 2 }),
              remote := some { title := some (JsVal.vStr "R"),
                                 category_id := some (JsVal.vNum 3), ts := none } }
          { title := "", catValue := none, options := [2, 3] }
          { sessionStore := some (RawVal.jsonObj
              { title := none, category_id := some (JsVal.vNum 2), ts := none }),
            localStore := none }).form := by decide

/-- C7 (witness): idempotence of the local overlay at concrete inputs. -/
theorem pageshow_dup_draft_witness :
    restoreDraftIntoForm
        { sessionStore := some (RawVal.jsonObj
            { title := some (JsVal.vStr "W"), category_id := some (JsVal.vNum 5), ts := none }),
          localStore := none }
        (restoreDraftIntoForm
          { sessionStore := some (RawVal.jsonObj
              { title := some (JsVal.vStr "W"), category_id := some (JsVal.vNum 5), ts := none }),
            localStore := none }
          { title := "", catValue := none, options := [5] })
      = restoreDraftIntoForm
          { sessionStore := some (RawVal.jsonObj
              { title := some (JsVal.vStr "W"), category_id := some (JsVal.vNum 5), ts := none }),
            localStore := none }
          { title := "", catValue := none, options := [5] } :=
  (pageshow_dup_draft { recipeId := 1, initDataOk := true, now := 0, fetched := none, remote := none }
    { title := "", catValue := none, options := [5] }
    { sessionStore := some (RawVal.jsonObj
        { title := some (JsVal.vStr "W"), category_id := some (JsVal.vNum 5), ts := none }),
      localStore := none }).1

end EditRecipe
